import Mathlib

/-!
Verification development for the blog backend (blog-server).

Shallow embedding of the core components: the domain error type and its
per-protocol wire mappings, the token service (jwt.rs), the auth use-case
(auth_service.rs), the post use-case (blog_service.rs), the store-level
repositories (user_repository.rs, post_repository.rs), the two protocol
adapters (http_handlers.rs + middleware.rs, grpc_service.rs), and the
process orchestrator's exit behaviour (main.rs).

Timestamps are modelled as integers. The argon2 password hash and the
HMAC-signed JWT are modelled as idealized structures: a hash blob is the
pair (password, salt) it was derived from, and a signed token records the
claims together with the key that produced its MAC; a token that fails
JWT decoding is the `malformed` case.
-/

namespace Blog

/-- Model of `sqlx::Error` as observed by the repositories: a row-not-found
from `fetch_one`, a database error carrying an SQLSTATE code, or any other
driver failure. -/
inductive DbError where
  | RowNotFound
  | Database (code : String)
  | Other (msg : String)
deriving DecidableEq

/-- Domain error type, from `domain/error.rs` (`enum AppError`). Payloads
that are opaque error values in the source are modelled as strings. -/
inductive AppError where
  | UserNotFound (username : String)
  | UserAlreadyExists
  | InvalidCredentials
  | PostNotFound
  | Forbidden
  | SqlxError (e : DbError)
  | MigrateError (msg : String)
  | DotenvyError (msg : String)
  | VarError (msg : String)
  | InvalidDatetime
  | JwtError (msg : String)
  | HashError (msg : String)
  | InvalidToken
  | IoError (msg : String)
deriving DecidableEq

/-- The `Display` rendering of each error, from the `#[error(...)]`
attributes in `domain/error.rs` (`self.to_string()` at the adapters). -/
def errorMessage : AppError → String
  | .UserNotFound username => "User \"" ++ username ++ "\" not found"
  | .UserAlreadyExists => "User with this username and/or email already exists"
  | .InvalidCredentials => "Invaid credentials"
  | .PostNotFound => "Post not found"
  | .Forbidden => "Forbidden: trying to edit another user's post"
  | .SqlxError (.RowNotFound) => "SQL error: no rows returned by a query that expected to return at least one row"
  | .SqlxError (.Database code) => "SQL error: " ++ code
  | .SqlxError (.Other msg) => "SQL error: " ++ msg
  | .MigrateError msg => "Migrate error: " ++ msg
  | .DotenvyError msg => "Dotenvy error: " ++ msg
  | .VarError msg => "Var error: " ++ msg
  | .InvalidDatetime => "Unable to create date/time"
  | .JwtError msg => "JWT error: " ++ msg
  | .HashError msg => "Hash error: " ++ msg
  | .InvalidToken => "Token is invalid or expired"
  | .IoError msg => "I/O error " ++ msg

/-- The HTTP status code chosen by `impl ResponseError for AppError`
(`error_response` in `presentation/http_handlers.rs`). -/
def httpStatus : AppError → Nat
  | .UserNotFound _ => 401
  | .UserAlreadyExists => 409
  | .InvalidCredentials => 401
  | .PostNotFound => 404
  | .Forbidden => 403
  | .InvalidToken => 401
  | _ => 500

/-- The JSON error body built by `error_response`
(`struct ErrorDescription` in `presentation/http_handlers.rs`). -/
structure ErrorDescription where
  error : String
  status : Nat
deriving DecidableEq

/-- The full HTTP error response produced by `error_response`: the status
code plus the serialized `ErrorDescription`. -/
def errorResponse (e : AppError) : Nat × ErrorDescription :=
  (httpStatus e, ⟨errorMessage e, httpStatus e⟩)

/-- The tonic status codes used by `From<AppError> for tonic::Status`
in `presentation/grpc_service.rs`. -/
inductive GrpcCode where
  | notFound
  | alreadyExists
  | unauthenticated
  | permissionDenied
  | internal
deriving DecidableEq

/-- A `tonic::Status`: code plus message. -/
structure GrpcStatus where
  code : GrpcCode
  message : String
deriving DecidableEq

/-- `impl From<AppError> for tonic::Status` in
`presentation/grpc_service.rs`: each constructor mapped in source order,
with the message being `value.to_string()`. -/
def grpcStatusOf (e : AppError) : GrpcStatus :=
  match e with
  | .UserNotFound _ => ⟨.notFound, errorMessage e⟩
  | .UserAlreadyExists => ⟨.alreadyExists, errorMessage e⟩
  | .InvalidCredentials => ⟨.unauthenticated, errorMessage e⟩
  | .PostNotFound => ⟨.notFound, errorMessage e⟩
  | .Forbidden => ⟨.permissionDenied, errorMessage e⟩
  | .InvalidToken => ⟨.unauthenticated, errorMessage e⟩
  | _ => ⟨.internal, errorMessage e⟩

/-- The RPC code alone. -/
def grpcCode (e : AppError) : GrpcCode := (grpcStatusOf e).code

/-! ## Token service (`infrastructure/jwt.rs`) -/

/-- JWT claims, from `struct Claims` in `infrastructure/jwt.rs`. The
`exp : DateTime<Utc>` field is modelled as an integer timestamp. -/
structure Claims where
  user_id : Int
  username : String
  exp : Int
deriving DecidableEq

/-- Idealized model of an encoded JWT. `signed c key` is a well-formed
token whose HMAC was produced with `key` over the serialized claims `c`
(representing a MAC by the pair (key, message) is the standard idealized
model of an unforgeable MAC); `malformed raw` is any string that fails
JWT decoding. -/
inductive Jwt where
  | signed (claims : Claims) (key : String)
  | malformed (raw : String)
deriving DecidableEq

/-- `TOKEN_LIFETIME: TimeDelta = TimeDelta::days(1)` in seconds
(`generate_token` in `infrastructure/jwt.rs`). -/
def tokenLifetime : Int := 86400

/-- The expiry leeway of `jsonwebtoken::Validation::default()`, used by
`verify_token`: 60 seconds by the library's documented default. -/
def jwtLeeway : Int := 60

/-- `JwtService::generate_token`: builds claims with
`exp = now + TOKEN_LIFETIME` and signs them with the service secret.
The datetime-overflow failure path (`InvalidDatetime`) is unreachable for
model timestamps and is omitted. -/
def generate_token (secret : String) (now : Int) (user_id : Int)
    (username : String) : Jwt :=
  .signed ⟨user_id, username, now + tokenLifetime⟩ secret

/-- `JwtService::verify_token`: `jsonwebtoken::decode` with
`Validation::default()`, with every library failure wrapped through
`AppError::from` into `AppError::JwtError` (per `#[from]` in
`domain/error.rs`). Decoding fails on a malformed encoding; then the
signature is checked against the service secret; then the default
validation rejects the token as expired when `exp < now - leeway`.
On success the embedded claims are returned unchanged; no store is
consulted (the function has no store argument). -/
def verify_token (secret : String) (now : Int) (token : Jwt) :
    Except AppError Claims :=
  match token with
  | .malformed _ => .error (.JwtError "InvalidToken")
  | .signed c key =>
    if key = secret then
      if c.exp < now - jwtLeeway then .error (.JwtError "ExpiredSignature")
      else .ok c
    else .error (.JwtError "InvalidSignature")

/-! ## Users, credential service and auth use-case
(`domain/user.rs`, `data/user_repository.rs`, `application/auth_service.rs`) -/

/-- Idealized argon2 PHC hash blob: it binds the password and the salt it
was derived from (`Argon2::hash_password` output). -/
structure PasswordHash where
  password : String
  salt : Nat
deriving DecidableEq

/-- `Argon2::hash_password(password, salt)`: derives a blob binding
password and salt. -/
def hash_password (password : String) (salt : Nat) : PasswordHash :=
  ⟨password, salt⟩

/-- `Argon2::verify_password`: recomputes the digest from the stored
salt and compares; true iff the password matches. -/
def verify_password (password : String) (h : PasswordHash) : Bool :=
  password == h.password

/-- `struct User` from `domain/user.rs`. -/
structure User where
  id : Int
  username : String
  email : String
  password_hash : PasswordHash
  created_at : Int
deriving DecidableEq

/-- `struct UserAndToken` from `domain/user.rs`. -/
structure UserAndToken where
  user : User
  token : Jwt
deriving DecidableEq

/-- The users table: rows plus the next store-assigned id. -/
structure UserStore where
  users : List User
  next_id : Int
deriving DecidableEq

/-- `UserRepository::get_by_username`: `SELECT ... WHERE username = $1`
(usernames are unique, so the first match is the row). -/
def get_by_username (st : UserStore) (username : String) : Option User :=
  st.users.find? (fun u => u.username == username)

/-- `UserRepository::save_user`: `INSERT ... RETURNING ...`. The unique
constraints on `username` and `email` make the insert fail with SQLSTATE
23505 when another row holds the same username or email, which the
repository maps to `UserAlreadyExists`; the failed insert leaves the
table unchanged. Otherwise the row is inserted with the store-assigned
id and returned. -/
def save_user (st : UserStore) (username email : String)
    (ph : PasswordHash) (now : Int) : UserStore × Except AppError User :=
  if st.users.any (fun u => u.username == username || u.email == email) then
    (st, .error .UserAlreadyExists)
  else
    let user : User := ⟨st.next_id, username, email, ph, now⟩
    (⟨st.users ++ [user], st.next_id + 1⟩, .ok user)

/-- `AuthService::register`: hash the password with a fresh salt, persist
via `save_user`, then issue a token bound to the new account and return
both. -/
def register (secret : String) (now : Int) (st : UserStore)
    (username email password : String) (salt : Nat) :
    UserStore × Except AppError UserAndToken :=
  let ph := hash_password password salt
  match save_user st username email ph now with
  | (st', .error e) => (st', .error e)
  | (st', .ok user) =>
    (st', .ok ⟨user, generate_token secret now user.id user.username⟩)

/-- `AuthService::login`: look up by username, failing with
`UserNotFound` when absent; verify the password, failing with
`InvalidCredentials` on mismatch; on match issue and return a token. -/
def login (secret : String) (now : Int) (st : UserStore)
    (username password : String) : Except AppError UserAndToken :=
  match get_by_username st username with
  | none => .error (.UserNotFound username)
  | some user =>
    if verify_password password user.password_hash then
      .ok ⟨user, generate_token secret now user.id user.username⟩
    else
      .error .InvalidCredentials

/-! ## Posts, post store and post use-case
(`domain/post.rs`, `data/post_repository.rs`, `application/blog_service.rs`) -/

/-- `struct Post` from `domain/post.rs`; timestamps as integers. -/
structure Post where
  id : Int
  title : String
  content : String
  author_id : Int
  created_at : Int
  updated_at : Int
deriving DecidableEq

/-- The posts table: rows plus the next store-assigned id. -/
structure PostStore where
  posts : List Post
  next_id : Int
deriving DecidableEq

/-- `PostRepository::get_post`: `SELECT ... WHERE id = $1` with
`fetch_optional` (ids are unique, so the first match is the row). -/
def repo_get_post (st : PostStore) (post_id : Int) : Option Post :=
  st.posts.find? (fun p => p.id == post_id)

/-- `PostRepository::update_post`: `UPDATE posts SET title, content,
updated_at = NOW() WHERE id = $1 AND author_id = $4 RETURNING ...` run
through `fetch_one`. When no row matches both the id and the author_id,
`fetch_one` fails with `sqlx::Error::RowNotFound`, wrapped by
`AppError::from` into `SqlxError`; the table is unchanged. When a row
matches, it is overwritten and the updated row returned. -/
def repo_update_post (st : PostStore) (post_id : Int)
    (title content : String) (author_id now : Int) :
    PostStore × Except AppError Post :=
  match st.posts.find? (fun p => p.id == post_id && p.author_id == author_id) with
  | none => (st, .error (.SqlxError .RowNotFound))
  | some p =>
    let p' : Post := { p with title := title, content := content, updated_at := now }
    (⟨st.posts.map (fun q =>
        if q.id == post_id && q.author_id == author_id then p' else q),
      st.next_id⟩,
     .ok p')

/-- `PostRepository::delete_post`: `DELETE FROM posts WHERE id = $1 AND
author_id = $2` via `execute`; the number of affected rows is ignored and
the function returns `Ok(())` whether or not any row matched. -/
def repo_delete_post (st : PostStore) (post_id author_id : Int) :
    PostStore × Except AppError Unit :=
  (⟨st.posts.filter (fun p => !(p.id == post_id && p.author_id == author_id)),
    st.next_id⟩,
   .ok ())

/-- The `ORDER BY created_at DESC` relation. -/
def createdAtDesc (a b : Post) : Prop := b.created_at ≤ a.created_at

instance : DecidableRel createdAtDesc :=
  fun a b => inferInstanceAs (Decidable (b.created_at ≤ a.created_at))

instance : IsTotal Post createdAtDesc :=
  ⟨fun a b => le_total b.created_at a.created_at⟩

instance : IsTrans Post createdAtDesc :=
  ⟨fun _ _ _ h h' => le_trans h' h⟩

/-- `PostRepository::get_posts`: `SELECT ... ORDER BY created_at DESC
LIMIT $1 OFFSET $2`. PostgreSQL rejects a negative LIMIT or OFFSET with
an error (surfaced as a driver error); otherwise the page is the sorted
rows after skipping `offset` and taking `limit`. -/
def repo_get_posts (st : PostStore) (limit offset : Int) :
    Except AppError (List Post) :=
  if limit < 0 || offset < 0 then
    .error (.SqlxError (.Other "LIMIT or OFFSET must not be negative"))
  else
    .ok (((st.posts.insertionSort createdAtDesc).drop offset.toNat).take limit.toNat)

/-- `PostRepository::get_total_posts_count`: `SELECT COUNT(*) FROM posts`. -/
def repo_get_total_posts_count (st : PostStore) : Nat :=
  st.posts.length

/-- `BlogService::get_post`: fetch by id, `PostNotFound` when absent. -/
def service_get_post (st : PostStore) (post_id : Int) : Except AppError Post :=
  match repo_get_post st post_id with
  | some post => .ok post
  | none => .error .PostNotFound

/-- `BlogService::create_post`: delegates directly to the store insert;
the author_id comes from the verified token. -/
def service_create_post (st : PostStore) (title content : String)
    (author_id now : Int) : PostStore × Except AppError Post :=
  let post : Post := ⟨st.next_id, title, content, author_id, now, now⟩
  (⟨st.posts ++ [post], st.next_id + 1⟩, .ok post)

/-- `BlogService::update_post`: fetch the post from the store state at the
moment of the call (via `get_post`), fail with `Forbidden` when
`post.author_id != user_id`, otherwise perform the store-level update
scoped by `(id, author_id)`. -/
def service_update_post (st : PostStore) (post_id : Int)
    (title content : String) (user_id now : Int) :
    PostStore × Except AppError Post :=
  match service_get_post st post_id with
  | .error e => (st, .error e)
  | .ok post =>
    if post.author_id ≠ user_id then (st, .error .Forbidden)
    else repo_update_post st post_id title content user_id now

/-- `BlogService::delete_post`: same ownership check as update, then the
store-level delete scoped by `(id, author_id)`. -/
def service_delete_post (st : PostStore) (post_id user_id : Int) :
    PostStore × Except AppError Unit :=
  match service_get_post st post_id with
  | .error e => (st, .error e)
  | .ok post =>
    if post.author_id ≠ user_id then (st, .error .Forbidden)
    else repo_delete_post st post_id user_id

/-- `BlogService::get_posts`: the page query then the unfiltered total
count. -/
def service_get_posts (st : PostStore) (limit offset : Int) :
    Except AppError (List Post × Nat) :=
  match repo_get_posts st limit offset with
  | .error e => .error e
  | .ok posts => .ok (posts, repo_get_total_posts_count st)

/-! ## Text-protocol adapter
(`presentation/http_handlers.rs`, `presentation/middleware.rs`) -/

/-- A wire-level HTTP outcome: a success with status and body, a domain
error rendered by `error_response` (status + `ErrorDescription` JSON), or
the bearer middleware's plain 401 (`ErrorUnauthorized` with a plain-text
body, produced in `jwt_validator` before any handler runs). -/
inductive HttpWire (α : Type) where
  | ok (status : Nat) (body : α)
  | appFailure (status : Nat) (body : ErrorDescription)
  | authFailure (message : String)
deriving DecidableEq

/-- Render a use-case result the way a handler does: the given success
status on `Ok`, `error_response` on `Err`. -/
def httpRender {α : Type} (successStatus : Nat) :
    Except AppError α → HttpWire α
  | .ok a => .ok successStatus a
  | .error e => .appFailure (errorResponse e).1 (errorResponse e).2

/-- `register` handler: 201 with the serialized `UserAndToken` on
success. -/
def http_register (secret : String) (now : Int) (st : UserStore)
    (username email password : String) (salt : Nat) :
    UserStore × HttpWire UserAndToken :=
  match register secret now st username email password salt with
  | (st', r) => (st', httpRender 201 r)

/-- `login` handler: 200 with the serialized `UserAndToken` on success. -/
def http_login (secret : String) (now : Int) (st : UserStore)
    (username password : String) : HttpWire UserAndToken :=
  httpRender 200 (login secret now st username password)

/-- The bearer middleware (`jwt_validator`) followed by the `update_post`
handler: a verification failure short-circuits into the middleware's
plain 401 and the use-case is not invoked; otherwise the caller identity
is the verified claims' user_id and the handler returns 200 with the
updated post. -/
def http_update_post (secret : String) (now : Int) (st : PostStore)
    (token : Jwt) (post_id : Int) (title content : String) :
    PostStore × HttpWire Post :=
  match verify_token secret now token with
  | .error _ => (st, .authFailure "Invalid or expired token")
  | .ok claims =>
    match service_update_post st post_id title content claims.user_id now with
    | (st', r) => (st', httpRender 200 r)

/-- The bearer middleware followed by the `delete_post` handler: 204 with
an empty body on success. -/
def http_delete_post (secret : String) (now : Int) (st : PostStore)
    (token : Jwt) (post_id : Int) : PostStore × HttpWire Unit :=
  match verify_token secret now token with
  | .error _ => (st, .authFailure "Invalid or expired token")
  | .ok claims =>
    match service_delete_post st post_id claims.user_id with
    | (st', r) => (st', httpRender 204 r)

/-- `default_limit` from `domain/post.rs` (serde default). -/
def default_limit : Int := 10

/-- `default_offset` from `domain/post.rs` (serde default). -/
def default_offset : Int := 0

/-- `struct GetPostsParams` with its serde defaults applied: an absent
query parameter takes the default. -/
structure GetPostsParams where
  limit : Int
  offset : Int
deriving DecidableEq

/-- Deserialization of the query string into `GetPostsParams`. -/
def parse_get_posts_params (limit? offset? : Option Int) : GetPostsParams :=
  ⟨limit?.getD default_limit, offset?.getD default_offset⟩

/-- `struct GetPostsResponse` from `domain/post.rs`. -/
structure GetPostsResponse where
  posts : List Post
  total : Nat
  limit : Int
  offset : Int
deriving DecidableEq

/-- `get_posts` handler: parse the query with defaults, call the
use-case, and return 200 with posts, total and the echoed window. -/
def http_get_posts (st : PostStore) (limit? offset? : Option Int) :
    HttpWire GetPostsResponse :=
  let params := parse_get_posts_params limit? offset?
  match service_get_posts st params.limit params.offset with
  | .ok (posts, total) => .ok 200 ⟨posts, total, params.limit, params.offset⟩
  | .error e => .appFailure (errorResponse e).1 (errorResponse e).2

/-! ## RPC-protocol adapter (`presentation/grpc_service.rs`) -/

/-- `blog_grpc_api::Post` as filled by `to_grpc_post`: timestamps become
millisecond integers (identity on model timestamps). -/
structure GrpcPost where
  id : Int
  title : String
  content : String
  author_id : Int
  created_at : Int
  updated_at : Int
deriving DecidableEq

/-- `to_grpc_post` in `presentation/grpc_service.rs`. -/
def to_grpc_post (p : Post) : GrpcPost :=
  ⟨p.id, p.title, p.content, p.author_id, p.created_at, p.updated_at⟩

/-- `blog_grpc_api::AuthResponse`: the register/login response message
carries the token only (`AuthResponse { token }`). -/
structure AuthResponse where
  token : Jwt
deriving DecidableEq

/-- `blog_grpc_api::GetPostsResponse`. -/
structure GrpcGetPostsResponse where
  posts : List GrpcPost
  limit : Int
  offset : Int
  total_posts_count : Int
deriving DecidableEq

/-- Map a use-case result into the tonic result, errors through
`From<AppError> for tonic::Status`. -/
def grpcRender {α : Type} : Except AppError α → Except GrpcStatus α
  | .ok a => .ok a
  | .error e => .error (grpcStatusOf e)

/-- `GrpcService::register`: on success keeps only the token
(`.map(|user_and_token| user_and_token.token)`) and wraps it in
`AuthResponse`. -/
def grpc_register (secret : String) (now : Int) (st : UserStore)
    (username email password : String) (salt : Nat) :
    UserStore × Except GrpcStatus AuthResponse :=
  match register secret now st username email password salt with
  | (st', .error e) => (st', .error (grpcStatusOf e))
  | (st', .ok uat) => (st', .ok ⟨uat.token⟩)

/-- `GrpcService::login`: same shape as `register`. -/
def grpc_login (secret : String) (now : Int) (st : UserStore)
    (username password : String) : Except GrpcStatus AuthResponse :=
  match login secret now st username password with
  | .error e => .error (grpcStatusOf e)
  | .ok uat => .ok ⟨uat.token⟩

/-- `http::HeaderValue::to_str` as used through
`MetadataValue::to_str()`: succeeds iff every byte is visible ASCII
(0x20 to 0x7E), yielding the decoded string. -/
def headerValueToStr (bytes : List Nat) : Option String :=
  if bytes.all (fun b => 32 ≤ b && b ≤ 126) then
    some (String.mk (bytes.map Char.ofNat))
  else none

/-- `GrpcService::get_user_id`: read the `authorization` metadata entry,
decode it as ASCII, strip the exact case-sensitive `"Bearer "` lead
(seven characters), all three failures collapsing through
`.ok_or(AppError::InvalidToken)`; only then hand the remainder to the
token service (abstracted here as `verifyFn`, the model of
`self.jwt_service.verify_token`) and project the user_id. -/
def get_user_id (verifyFn : String → Except AppError Claims)
    (auth : Option (List Nat)) : Except AppError Int :=
  match auth with
  | none => .error .InvalidToken
  | some bytes =>
    match headerValueToStr bytes with
    | none => .error .InvalidToken
    | some s =>
      if s.startsWith "Bearer " then
        match verifyFn (s.drop 7) with
        | .ok claims => .ok claims.user_id
        | .error e => .error e
      else .error .InvalidToken

/-- `GrpcService::update_post`: verify the bearer token via the shared
token service, then invoke the use-case with the verified user_id;
domain errors map through `From<AppError> for tonic::Status`. -/
def grpc_update_post (secret : String) (now : Int) (st : PostStore)
    (token : Jwt) (post_id : Int) (title content : String) :
    PostStore × Except GrpcStatus GrpcPost :=
  match verify_token secret now token with
  | .error e => (st, .error (grpcStatusOf e))
  | .ok claims =>
    match service_update_post st post_id title content claims.user_id now with
    | (st', .ok post) => (st', .ok (to_grpc_post post))
    | (st', .error e) => (st', .error (grpcStatusOf e))

/-- `GrpcService::delete_post`: same pipeline, unit response. -/
def grpc_delete_post (secret : String) (now : Int) (st : PostStore)
    (token : Jwt) (post_id : Int) : PostStore × Except GrpcStatus Unit :=
  match verify_token secret now token with
  | .error e => (st, .error (grpcStatusOf e))
  | .ok claims =>
    match service_delete_post st post_id claims.user_id with
    | (st', r) => (st', grpcRender r)

/-- `GrpcService::get_posts`: `params.limit.unwrap_or(10)`,
`params.offset.unwrap_or(0)`, then the use-case, posts mapped through
`to_grpc_post` and the count cast to i64. -/
def grpc_get_posts (st : PostStore) (limit? offset? : Option Int) :
    Except GrpcStatus GrpcGetPostsResponse :=
  let limit := limit?.getD 10
  let offset := offset?.getD 0
  match service_get_posts st limit offset with
  | .error e => .error (grpcStatusOf e)
  | .ok (posts, total) =>
    .ok ⟨posts.map to_grpc_post, limit, offset, (total : Int)⟩

/-! ## Process orchestrator (`main.rs`) -/

/-- Which arm of the `tokio::select!` in `main` fired, carrying each
awaited listener task's own exit value (`Ok` for a clean shutdown,
`Err` for an error exit). -/
inductive SelectTrigger where
  | ctrlC (http_res grpc_res : Except AppError Unit)
  | httpTaskExited (res : Except AppError Unit)
  | grpcTaskExited (res : Except AppError Unit)

/-- The value `main` returns for each trigger: the Ctrl+C arm joins both
tasks and only logs (`warn!`) their errors; the two unexpected-exit arms
only log (`error!`); every path falls through to the final `Ok(())`. -/
def main_result (t : SelectTrigger) : Except AppError Unit :=
  match t with
  | .ctrlC _ _ => .ok ()
  | .httpTaskExited _ => .ok ()
  | .grpcTaskExited _ => .ok ()

/-! ## Theorems -/

/-- C2: the claim's per-protocol error table fails on the RPC side:
`UserNotFound` is mapped by `From<AppError> for tonic::Status` to
NOT_FOUND, not UNAUTHENTICATED. -/
theorem C2_counterexample :
    grpcStatusOf (AppError.UserNotFound "alice") =
      ⟨GrpcCode.notFound, "User \"alice\" not found"⟩ ∧
    GrpcCode.notFound ≠ GrpcCode.unauthenticated := by
  exact ⟨rfl, by decide⟩

/-- C2 (amended): every domain error maps per the section 7 table on the
text protocol, and per the table on the RPC protocol except that
`UserNotFound` maps to NOT_FOUND there: 401/NOT_FOUND for UserNotFound,
401/UNAUTHENTICATED for InvalidCredentials, 409/ALREADY_EXISTS for
UserAlreadyExists, 404/NOT_FOUND for PostNotFound, 403/PERMISSION_DENIED
for Forbidden, 401/UNAUTHENTICATED for InvalidToken, and 500/INTERNAL for
every other kind. -/
theorem C2_amended (u msg : String) (e : DbError) :
    httpStatus (.UserNotFound u) = 401 ∧ grpcCode (.UserNotFound u) = .notFound ∧
    httpStatus .InvalidCredentials = 401 ∧ grpcCode .InvalidCredentials = .unauthenticated ∧
    httpStatus .UserAlreadyExists = 409 ∧ grpcCode .UserAlreadyExists = .alreadyExists ∧
    httpStatus .PostNotFound = 404 ∧ grpcCode .PostNotFound = .notFound ∧
    httpStatus .Forbidden = 403 ∧ grpcCode .Forbidden = .permissionDenied ∧
    httpStatus .InvalidToken = 401 ∧ grpcCode .InvalidToken = .unauthenticated ∧
    httpStatus (.SqlxError e) = 500 ∧ grpcCode (.SqlxError e) = .internal ∧
    httpStatus (.MigrateError msg) = 500 ∧ grpcCode (.MigrateError msg) = .internal ∧
    httpStatus (.DotenvyError msg) = 500 ∧ grpcCode (.DotenvyError msg) = .internal ∧
    httpStatus (.VarError msg) = 500 ∧ grpcCode (.VarError msg) = .internal ∧
    httpStatus .InvalidDatetime = 500 ∧ grpcCode .InvalidDatetime = .internal ∧
    httpStatus (.JwtError msg) = 500 ∧ grpcCode (.JwtError msg) = .internal ∧
    httpStatus (.HashError msg) = 500 ∧ grpcCode (.HashError msg) = .internal ∧
    httpStatus (.IoError msg) = 500 ∧ grpcCode (.IoError msg) = .internal := by
  refine ⟨rfl, ?_, rfl, rfl, rfl, rfl, rfl, rfl, rfl, rfl, rfl, rfl, ?_, ?_,
    rfl, rfl, rfl, rfl, rfl, rfl, rfl, rfl, rfl, rfl, rfl, rfl, rfl, rfl⟩
  · rfl
  · cases e <;> rfl
  · cases e <;> rfl

/-- C9: the claim fails: with the RPC listener task exiting with an
error while the sibling never even stopped, `main` still returns
`Ok(())` — the failure is only logged, never reported upward. -/
theorem C9_counterexample :
    main_result (SelectTrigger.grpcTaskExited
      (.error (.IoError "listener failed"))) = .ok () := rfl

/-- C9 (amended): whatever arm of the shutdown `select!` fires and
whatever the listeners' own exit values are, `main` returns `Ok(())`:
listener failures are logged but the overall run always reports
success. -/
theorem C9_amended (t : SelectTrigger) : main_result t = .ok () := by
  cases t <;> rfl

/-- C10: when the `authorization` metadata entry is absent, is not valid
ASCII, or does not start with the exact `"Bearer "` marker, the RPC
adapter's `get_user_id` returns `InvalidToken` whatever the token
service would do (so verification is never consulted and no use-case
runs). -/
theorem C10_bearer_guard (verifyFn : String → Except AppError Claims)
    (auth : Option (List Nat))
    (h : auth = none ∨ ∃ bytes, auth = some bytes ∧
      (headerValueToStr bytes = none ∨
        ∃ s, headerValueToStr bytes = some s ∧ s.startsWith "Bearer " = false)) :
    get_user_id verifyFn auth = .error .InvalidToken := by
  rcases h with h | ⟨bytes, rfl, h⟩
  · subst h; rfl
  · rcases h with h | ⟨s, hs, hpre⟩
    · simp [get_user_id, h]
    · simp [get_user_id, hs, hpre]

/-- C10 witness: an ASCII value without the bearer marker yields
`InvalidToken` even for a token service that would answer differently. -/
theorem C10_witness :
    get_user_id (fun _ => .error (.JwtError "boom")) (some [65, 66]) =
      .error .InvalidToken :=
  C10_bearer_guard _ _ (Or.inr ⟨[65, 66], rfl, Or.inr ⟨"AB", by decide, by decide⟩⟩)

/-- C5: the claim fails at the store level: with no row matching
`(id, author_id)`, `update_post` reports a `RowNotFound` driver error
(an internal-class failure, 500), and `delete_post` reports plain
success — neither reports not-found or forbidden. -/
theorem C5_counterexample :
    repo_update_post ⟨[], 1⟩ 1 "t" "c" 2 0 =
      (⟨[], 1⟩, .error (.SqlxError .RowNotFound)) ∧
    httpStatus (.SqlxError .RowNotFound) = 500 ∧
    grpcCode (.SqlxError .RowNotFound) = .internal ∧
    repo_delete_post ⟨[], 1⟩ 1 2 = (⟨[], 1⟩, .ok ()) := by
  exact ⟨rfl, rfl, rfl, rfl⟩

/-- C5 (amended): when no row matches `(id, author_id)` at the moment of
the write, the store-level update reports a `RowNotFound` storage error
(surfaced as 500/INTERNAL) and leaves the store unchanged, while the
store-level delete reports success and leaves the store unchanged; when
a row matches, the update overwrites title/content, refreshes
`updated_at` and returns the updated row, and the delete succeeds with
the matching row removed. -/
theorem C5_amended (st : PostStore) (post_id : Int) (title content : String)
    (author_id now : Int) :
    (st.posts.find? (fun p => p.id == post_id && p.author_id == author_id) = none →
      repo_update_post st post_id title content author_id now =
        (st, .error (.SqlxError .RowNotFound)) ∧
      httpStatus (.SqlxError .RowNotFound) = 500 ∧
      grpcCode (.SqlxError .RowNotFound) = .internal ∧
      repo_delete_post st post_id author_id = (st, .ok ())) ∧
    (∀ p, st.posts.find? (fun p => p.id == post_id && p.author_id == author_id) = some p →
      repo_update_post st post_id title content author_id now =
        (⟨st.posts.map (fun q =>
            if q.id == post_id && q.author_id == author_id then
              { p with title := title, content := content, updated_at := now }
            else q),
          st.next_id⟩,
         .ok { p with title := title, content := content, updated_at := now }) ∧
      (repo_delete_post st post_id author_id).2 = .ok () ∧
      ∀ q ∈ (repo_delete_post st post_id author_id).1.posts,
        ¬(q.id = post_id ∧ q.author_id = author_id)) := by
  constructor
  · intro h
    refine ⟨?_, rfl, rfl, ?_⟩
    · simp [repo_update_post, h]
    · have hall := List.find?_eq_none.mp h
      have heq : st.posts.filter
          (fun p => !(p.id == post_id && p.author_id == author_id)) = st.posts := by
        rw [List.filter_eq_self]
        intro a ha
        cases hb : (a.id == post_id && a.author_id == author_id) with
        | false => simp [hb]
        | true => exact absurd hb (hall a ha)
      unfold repo_delete_post
      rw [heq]
  · intro p hp
    refine ⟨by simp [repo_update_post, hp], rfl, ?_⟩
    intro q hq
    have hq' : q ∈ st.posts.filter
        (fun p => !(p.id == post_id && p.author_id == author_id)) := hq
    rintro ⟨h1, h2⟩
    have htrue : (q.id == post_id && q.author_id == author_id) = true := by
      simp [h1, h2]
    have hmem := (List.mem_filter.mp hq').2
    rw [htrue] at hmem
    simp at hmem

/-- C5 witness: a one-row store where the row matches: the update
succeeds with the refreshed row. -/
theorem C5_witness :
    repo_update_post ⟨[⟨1, "t", "c", 7, 0, 0⟩], 2⟩ 1 "t2" "c2" 7 5 =
      (⟨[⟨1, "t2", "c2", 7, 0, 5⟩], 2⟩, .ok ⟨1, "t2", "c2", 7, 0, 5⟩) := by
  have h := ((C5_amended ⟨[⟨1, "t", "c", 7, 0, 0⟩], 2⟩ 1 "t2" "c2" 7 5).2
      ⟨1, "t", "c", 7, 0, 0⟩ (by decide)).1
  exact h

/-- C4: the claim fails on the error kind: a failing verification
yields the wrapped library error `JwtError` (mapped to 500/INTERNAL on
the RPC adapter), never the distinct `InvalidToken` variant the claim
names. -/
theorem C4_counterexample :
    verify_token "s" 0 (.malformed "garbage") = .error (.JwtError "InvalidToken") ∧
    AppError.JwtError "InvalidToken" ≠ AppError.InvalidToken ∧
    httpStatus (.JwtError "InvalidToken") = 500 ∧
    grpcCode (.JwtError "InvalidToken") = .internal := by
  exact ⟨rfl, by decide, rfl, rfl⟩

/-- C4 (amended): token verification never fails with `InvalidToken`; it
fails — with the wrapped library error `JwtError` — exactly when the
encoding is malformed, the signature was not produced with the server
secret, or the default validation judges the token expired
(`exp < now - leeway`, leeway 60 s); on success it returns exactly the
claims embedded at issue time (no store is consulted: verification takes
no store), so a token issued with the server secret verifies for its
full lifetime whatever happens to the account. -/
theorem C4_amended (secret : String) (now : Int) (token : Jwt) :
    verify_token secret now token ≠ .error .InvalidToken ∧
    ((∃ msg, verify_token secret now token = .error (.JwtError msg)) ↔
      ((∃ raw, token = .malformed raw) ∨
       (∃ c key, token = .signed c key ∧ key ≠ secret) ∨
       (∃ c, token = .signed c secret ∧ c.exp < now - jwtLeeway))) ∧
    (∀ c, verify_token secret now token = .ok c →
      token = .signed c secret ∧ ¬ c.exp < now - jwtLeeway) ∧
    (∀ nowIssue uid uname, ¬ nowIssue + tokenLifetime < now - jwtLeeway →
      verify_token secret now (generate_token secret nowIssue uid uname) =
        .ok ⟨uid, uname, nowIssue + tokenLifetime⟩) := by
  refine ⟨?_, ⟨?_, ?_⟩, ?_, ?_⟩
  · cases token with
    | malformed raw => simp [verify_token]
    | signed c key =>
      by_cases hk : key = secret
      · by_cases he : c.exp < now - jwtLeeway <;>
          simp [verify_token, hk, he]
      · simp [verify_token, hk]
  · rintro ⟨msg, hmsg⟩
    cases token with
    | malformed raw => exact Or.inl ⟨raw, rfl⟩
    | signed c key =>
      by_cases hk : key = secret
      · subst hk
        by_cases he : c.exp < now - jwtLeeway
        · exact Or.inr (Or.inr ⟨c, rfl, he⟩)
        · simp [verify_token, he] at hmsg
      · exact Or.inr (Or.inl ⟨c, key, rfl, hk⟩)
  · rintro (⟨raw, rfl⟩ | ⟨c, key, rfl, hk⟩ | ⟨c, rfl, he⟩)
    · exact ⟨"InvalidToken", rfl⟩
    · exact ⟨"InvalidSignature", by simp [verify_token, hk]⟩
    · exact ⟨"ExpiredSignature", by simp [verify_token, he]⟩
  · intro c hc
    cases token with
    | malformed raw => simp [verify_token] at hc
    | signed c' key =>
      by_cases hk : key = secret
      · subst hk
        by_cases he : c'.exp < now - jwtLeeway
        · simp [verify_token, he] at hc
        · simp [verify_token, he] at hc
          exact ⟨by rw [hc], by rw [← hc]; exact he⟩
      · simp [verify_token, hk] at hc
  · intro nowIssue uid uname hlive
    simp [verify_token, generate_token, hlive]

/-- C4 witness: a malformed token fails with the wrapped library
error. -/
theorem C4_witness :
    ∃ msg, verify_token "s" 0 (Jwt.malformed "x") = .error (.JwtError msg) :=
  (C4_amended "s" 0 (Jwt.malformed "x")).2.1.mpr (Or.inl ⟨"x", rfl⟩)

/-- C1: the claim fails: with one stored account `bob`, a login as the
nonexistent `alice` and a login as `bob` with a wrong password produce
different RPC codes (NOT_FOUND vs UNAUTHENTICATED) and different text
bodies (the nonexistent-username body embeds the username), so the two
cases are distinguishable and account existence is revealed. -/
theorem C1_counterexample :
    grpc_login "s" 0 ⟨[⟨1, "bob", "b@x", ⟨"pw", 0⟩, 0⟩], 2⟩ "alice" "pw" =
      .error ⟨.notFound, "User \"alice\" not found"⟩ ∧
    grpc_login "s" 0 ⟨[⟨1, "bob", "b@x", ⟨"pw", 0⟩, 0⟩], 2⟩ "bob" "wrong" =
      .error ⟨.unauthenticated, "Invaid credentials"⟩ ∧
    GrpcCode.notFound ≠ GrpcCode.unauthenticated ∧
    http_login "s" 0 ⟨[⟨1, "bob", "b@x", ⟨"pw", 0⟩, 0⟩], 2⟩ "alice" "pw" =
      .appFailure 401 ⟨"User \"alice\" not found", 401⟩ ∧
    http_login "s" 0 ⟨[⟨1, "bob", "b@x", ⟨"pw", 0⟩, 0⟩], 2⟩ "bob" "wrong" =
      .appFailure 401 ⟨"Invaid credentials", 401⟩ ∧
    ("User \"alice\" not found" : String) ≠ "Invaid credentials" := by
  refine ⟨rfl, rfl, by decide, by decide, by decide, by decide⟩

/-- C1 (amended): a nonexistent-username login yields 401 with the
`UserNotFound` body on the text protocol and NOT_FOUND on the RPC
protocol, while a wrong-password login yields 401 with the
`InvalidCredentials` body and UNAUTHENTICATED: the status class
coincides only on the text protocol, and the representations differ, so
the wire responses are distinguishable. -/
theorem C1_amended (secret : String) (now : Int) (st : UserStore)
    (username password : String) :
    (get_by_username st username = none →
      http_login secret now st username password =
        .appFailure 401 ⟨errorMessage (.UserNotFound username), 401⟩ ∧
      grpc_login secret now st username password =
        .error ⟨.notFound, errorMessage (.UserNotFound username)⟩) ∧
    (∀ u, get_by_username st username = some u →
      verify_password password u.password_hash = false →
      http_login secret now st username password =
        .appFailure 401 ⟨errorMessage .InvalidCredentials, 401⟩ ∧
      grpc_login secret now st username password =
        .error ⟨.unauthenticated, errorMessage .InvalidCredentials⟩) := by
  constructor
  · intro h
    constructor
    · simp [http_login, login, h, httpRender, errorResponse, httpStatus]
    · simp [grpc_login, login, h, grpcStatusOf]
  · intro u hu hv
    constructor
    · simp [http_login, login, hu, hv, httpRender, errorResponse, httpStatus]
    · simp [grpc_login, login, hu, hv, grpcStatusOf]

/-- C1 witness: the empty store, nonexistent username. -/
theorem C1_witness :
    http_login "s" 0 ⟨[], 1⟩ "alice" "pw" =
      .appFailure 401 ⟨errorMessage (.UserNotFound "alice"), 401⟩ ∧
    grpc_login "s" 0 ⟨[], 1⟩ "alice" "pw" =
      .error ⟨.notFound, errorMessage (.UserNotFound "alice")⟩ :=
  (C1_amended "s" 0 ⟨[], 1⟩ "alice" "pw").1 rfl

/-- C3: if the post fetched from the store state at the moment of the
operation is owned by someone other than the caller taken from the
verified token, update and delete fail with `Forbidden` at the use-case
and through both adapters (PERMISSION_DENIED / 403), and a token issued
for account A never produces a successful mutation on that post at any
time. -/
theorem C3_ownership (secret unameA : String) (nowIssue now uidA : Int)
    (st : PostStore) (pid : Int) (p : Post) (title content : String)
    (hp : repo_get_post st pid = some p) (hne : p.author_id ≠ uidA)
    (hlive : ¬ nowIssue + tokenLifetime < now - jwtLeeway) :
    service_update_post st pid title content uidA now = (st, .error .Forbidden) ∧
    service_delete_post st pid uidA = (st, .error .Forbidden) ∧
    grpc_update_post secret now st (generate_token secret nowIssue uidA unameA)
        pid title content = (st, .error (grpcStatusOf .Forbidden)) ∧
    grpc_delete_post secret now st (generate_token secret nowIssue uidA unameA)
        pid = (st, .error (grpcStatusOf .Forbidden)) ∧
    http_update_post secret now st (generate_token secret nowIssue uidA unameA)
        pid title content = (st, .appFailure 403 ⟨errorMessage .Forbidden, 403⟩) ∧
    http_delete_post secret now st (generate_token secret nowIssue uidA unameA)
        pid = (st, .appFailure 403 ⟨errorMessage .Forbidden, 403⟩) ∧
    (∀ now2 (g : GrpcPost),
      (grpc_update_post secret now2 st (generate_token secret nowIssue uidA unameA)
        pid title content).2 ≠ .ok g) ∧
    (∀ now2 (s : Nat) (b : Post),
      (http_update_post secret now2 st (generate_token secret nowIssue uidA unameA)
        pid title content).2 ≠ .ok s b) ∧
    (∀ now2,
      (grpc_delete_post secret now2 st (generate_token secret nowIssue uidA unameA)
        pid).2 ≠ .ok ()) ∧
    (∀ now2 (s : Nat),
      (http_delete_post secret now2 st (generate_token secret nowIssue uidA unameA)
        pid).2 ≠ .ok s ()) := by
  have hver : ∀ now2 : Int, ¬ nowIssue + tokenLifetime < now2 - jwtLeeway →
      verify_token secret now2 (generate_token secret nowIssue uidA unameA) =
        .ok ⟨uidA, unameA, nowIssue + tokenLifetime⟩ := by
    intro now2 h2
    simp [verify_token, generate_token, h2]
  have hexpver : ∀ now2 : Int, nowIssue + tokenLifetime < now2 - jwtLeeway →
      verify_token secret now2 (generate_token secret nowIssue uidA unameA) =
        .error (.JwtError "ExpiredSignature") := by
    intro now2 h2
    simp [verify_token, generate_token, h2]
  have hsvc_u : ∀ now2 : Int,
      service_update_post st pid title content uidA now2 = (st, .error .Forbidden) := by
    intro now2
    simp [service_update_post, service_get_post, hp, hne]
  have hsvc_d : service_delete_post st pid uidA = (st, .error .Forbidden) := by
    simp [service_delete_post, service_get_post, hp, hne]
  refine ⟨hsvc_u now, hsvc_d, ?_, ?_, ?_, ?_, ?_, ?_, ?_, ?_⟩
  · simp [grpc_update_post, hver now hlive, hsvc_u now]
  · simp [grpc_delete_post, hver now hlive, hsvc_d, grpcRender]
  · simp [http_update_post, hver now hlive, hsvc_u now, httpRender, errorResponse, httpStatus]
  · simp [http_delete_post, hver now hlive, hsvc_d, httpRender, errorResponse, httpStatus]
  · intro now2 g
    by_cases h2 : nowIssue + tokenLifetime < now2 - jwtLeeway
    · simp [grpc_update_post, hexpver now2 h2]
    · simp [grpc_update_post, hver now2 h2, hsvc_u now2]
  · intro now2 s b
    by_cases h2 : nowIssue + tokenLifetime < now2 - jwtLeeway
    · simp [http_update_post, hexpver now2 h2]
    · simp [http_update_post, hver now2 h2, hsvc_u now2, httpRender]
  · intro now2
    by_cases h2 : nowIssue + tokenLifetime < now2 - jwtLeeway
    · simp [grpc_delete_post, hexpver now2 h2]
    · simp [grpc_delete_post, hver now2 h2, hsvc_d, grpcRender]
  · intro now2 s
    by_cases h2 : nowIssue + tokenLifetime < now2 - jwtLeeway
    · simp [http_delete_post, hexpver now2 h2]
    · simp [http_delete_post, hver now2 h2, hsvc_d, httpRender]

/-- C3 witness: account 1's fresh token against a post owned by
account 2. -/
theorem C3_witness :
    grpc_update_post "s" 0 ⟨[⟨1, "T", "C", 2, 0, 0⟩], 2⟩
        (generate_token "s" 0 1 "alice") 1 "X" "Y" =
      (⟨[⟨1, "T", "C", 2, 0, 0⟩], 2⟩, .error (grpcStatusOf .Forbidden)) :=
  (C3_ownership "s" "alice" 0 0 1 ⟨[⟨1, "T", "C", 2, 0, 0⟩], 2⟩ 1
    ⟨1, "T", "C", 2, 0, 0⟩ "X" "Y" (by decide) (by decide) (by decide)).2.2.1

/-- C6: registration with a username or email already present fails
with `UserAlreadyExists` leaving the store unchanged; otherwise the
account is inserted with the store-assigned id and returned together
with a token whose embedded identity is the new account's id and
username. -/
theorem C6_register_unique (secret : String) (now : Int) (st : UserStore)
    (username email password : String) (salt : Nat) :
    ((st.users.any fun u => u.username == username || u.email == email) = true →
      register secret now st username email password salt =
        (st, .error .UserAlreadyExists)) ∧
    ((st.users.any fun u => u.username == username || u.email == email) = false →
      register secret now st username email password salt =
        (⟨st.users ++ [⟨st.next_id, username, email, hash_password password salt, now⟩],
          st.next_id + 1⟩,
         .ok ⟨⟨st.next_id, username, email, hash_password password salt, now⟩,
              generate_token secret now st.next_id username⟩) ∧
      generate_token secret now st.next_id username =
        .signed ⟨st.next_id, username, now + tokenLifetime⟩ secret) := by
  constructor
  · intro h
    simp [register, save_user, h]
  · intro h
    exact ⟨by simp [register, save_user, h], rfl⟩

/-- C6 witness: registering a second `alice` fails with
`UserAlreadyExists` and the store is unchanged. -/
theorem C6_witness :
    register "s" 0 ⟨[⟨1, "alice", "a@x", ⟨"pw", 0⟩, 0⟩], 2⟩ "alice" "b@y" "pw2" 1 =
      (⟨[⟨1, "alice", "a@x", ⟨"pw", 0⟩, 0⟩], 2⟩, .error .UserAlreadyExists) :=
  (C6_register_unique "s" 0 ⟨[⟨1, "alice", "a@x", ⟨"pw", 0⟩, 0⟩], 2⟩ "alice" "b@y" "pw2" 1).1
    (by decide)

/-- C8: the claim fails: two registrations differing only in the email
produce identical RPC `AuthResponse` messages but different text-protocol
bodies, so the RPC response cannot carry the account — it is not
structurally equivalent to the text protocol's account+token body. -/
theorem C8_counterexample :
    (grpc_register "s" 0 ⟨[], 1⟩ "alice" "a@x" "pw" 0).2 =
      (grpc_register "s" 0 ⟨[], 1⟩ "alice" "b@x" "pw" 0).2 ∧
    (http_register "s" 0 ⟨[], 1⟩ "alice" "a@x" "pw" 0).2 ≠
      (http_register "s" 0 ⟨[], 1⟩ "alice" "b@x" "pw" 0).2 := by
  refine ⟨rfl, by decide⟩

/-- C8 (amended): on every successful Register or Login the RPC response
carries only the token; that token equals the one in the text protocol's
success body (201 for register, 200 for login, body = account+token),
and the final stores agree, but the account itself appears only in the
text protocol's body. -/
theorem C8_amended (secret : String) (now : Int) (st : UserStore)
    (username email password : String) (salt : Nat) :
    (∀ st' user tok,
      http_register secret now st username email password salt =
        (st', .ok 201 ⟨user, tok⟩) →
      grpc_register secret now st username email password salt =
        (st', .ok ⟨tok⟩)) ∧
    (∀ user tok,
      http_login secret now st username password = .ok 200 ⟨user, tok⟩ →
      grpc_login secret now st username password = .ok ⟨tok⟩) := by
  constructor
  · intro st' user tok h
    unfold http_register at h
    unfold grpc_register
    rcases hr : register secret now st username email password salt with ⟨st'', r⟩
    rw [hr] at h
    cases r with
    | error e => simp [httpRender] at h
    | ok uat =>
      simp only [httpRender] at h
      obtain ⟨h1, h2⟩ := Prod.ext_iff.mp h
      injection h2 with hstat hbody
      subst hbody
      subst h1
      rfl
  · intro user tok h
    unfold http_login at h
    unfold grpc_login
    cases hr : login secret now st username password with
    | error e => rw [hr] at h; simp [httpRender] at h
    | ok uat =>
      rw [hr] at h
      simp only [httpRender] at h
      injection h with hstat hbody
      subst hbody
      rfl

/-- C8 witness: a concrete successful registration: the RPC response is
the token alone. -/
theorem C8_witness :
    grpc_register "s" 0 ⟨[], 1⟩ "alice" "a@x" "pw" 0 =
      (⟨[⟨1, "alice", "a@x", ⟨"pw", 0⟩, 0⟩], 2⟩,
       .ok ⟨.signed ⟨1, "alice", 0 + tokenLifetime⟩ "s"⟩) :=
  (C8_amended "s" 0 ⟨[], 1⟩ "alice" "a@x" "pw" 0).1
    ⟨[⟨1, "alice", "a@x", ⟨"pw", 0⟩, 0⟩], 2⟩
    ⟨1, "alice", "a@x", ⟨"pw", 0⟩, 0⟩
    (.signed ⟨1, "alice", 0 + tokenLifetime⟩ "s") (by decide)

/-- C7: with limit and offset unspecified both adapters use limit 10 and
offset 0; the returned page has at most 10 posts sorted by `created_at`
descending, the text and RPC responses agree on the page, and the
returned total is the full row count — and stays the full row count for
every non-negative pagination window. -/
theorem C7_list_defaults (st : PostStore) :
    parse_get_posts_params none none = ⟨10, 0⟩ ∧
    (∃ page : List Post,
      service_get_posts st 10 0 = .ok (page, st.posts.length) ∧
      http_get_posts st none none = .ok 200 ⟨page, st.posts.length, 10, 0⟩ ∧
      grpc_get_posts st none none =
        .ok ⟨page.map to_grpc_post, 10, 0, (st.posts.length : Int)⟩ ∧
      page.length ≤ 10 ∧
      page.Sorted createdAtDesc) ∧
    (∀ limit offset : Int, 0 ≤ limit → 0 ≤ offset →
      ∃ pg : List Post, service_get_posts st limit offset = .ok (pg, st.posts.length)) := by
  have hguard : ∀ limit offset : Int, 0 ≤ limit → 0 ≤ offset →
      repo_get_posts st limit offset =
        .ok (((st.posts.insertionSort createdAtDesc).drop offset.toNat).take limit.toNat) := by
    intro limit offset hl ho
    simp [repo_get_posts, not_lt.mpr hl, not_lt.mpr ho]
  refine ⟨rfl, ⟨((st.posts.insertionSort createdAtDesc).drop 0).take 10, ?_, ?_, ?_, ?_, ?_⟩, ?_⟩
  · simp [service_get_posts, hguard 10 0 (by norm_num) le_rfl, repo_get_total_posts_count]
  · simp [http_get_posts, parse_get_posts_params, default_limit, default_offset,
      service_get_posts, hguard 10 0 (by norm_num) le_rfl, repo_get_total_posts_count]
  · simp [grpc_get_posts, service_get_posts, hguard 10 0 (by norm_num) le_rfl,
      repo_get_total_posts_count]
  · rw [List.length_take]
    exact min_le_left _ _
  · have hs : (st.posts.insertionSort createdAtDesc).Sorted createdAtDesc :=
      List.sorted_insertionSort createdAtDesc st.posts
    exact List.Pairwise.sublist
      ((List.take_sublist _ _).trans (List.drop_sublist _ _)) hs
  · intro limit offset hl ho
    refine ⟨((st.posts.insertionSort createdAtDesc).drop offset.toNat).take limit.toNat, ?_⟩
    simp [service_get_posts, hguard limit offset hl ho, repo_get_total_posts_count]

/-- C7 witness: the window hypotheses discharged at the default
window on a two-post store. -/
theorem C7_witness :
    ∃ pg : List Post,
      service_get_posts ⟨[⟨1, "a", "x", 1, 5, 5⟩, ⟨2, "b", "y", 1, 9, 9⟩], 3⟩ 10 0 =
        .ok (pg, 2) :=
  (C7_list_defaults ⟨[⟨1, "a", "x", 1, 5, 5⟩, ⟨2, "b", "y", 1, 9, 9⟩], 3⟩).2.2 10 0
    (by norm_num) le_rfl

end Blog
